import Mathlib

/-!
Verification of the autocertdns repository: a shallow embedding of the
certificate-renewal manager (autocertdns.go) and of the two DNS challenge
provisioners (godop for DigitalOcean, gcdnsp for Google Cloud DNS), with
theorems settling the specification claims.

External effects (ACME authority calls, DNS API calls, nameserver queries)
are modelled by explicit environments describing the outcome of each call,
and each operation additionally returns the list of external calls it made,
so that properties such as "no network activity before validation" are
statable.
-/

deriving instance DecidableEq for Except

namespace Autocertdns

/-! ### String helpers mirroring the Go strings package

Go operates on bytes; all inputs here are ASCII DNS names, for which Lean
characters and Go bytes coincide, so strings are modelled by their
character lists. -/

/-- Go strings.HasSuffix: s ends with the given ending. -/
def strEndsWith (s ending : String) : Bool :=
  List.isSuffixOf ending.data s.data

/-- Take the first n characters of s, as in a Go slice s[:n]. -/
def strTake (s : String) (n : Nat) : String :=
  String.mk (s.data.take n)

/-- Go strings.TrimSuffix: remove the ending from s when present. -/
def strTrimSuffix (s ending : String) : String :=
  if strEndsWith s ending then strTake s (s.data.length - ending.data.length) else s

/-- Go strings.TrimFunc with the quote predicate used in gcdnsp.contains:
strips leading and trailing double-quote characters. -/
def trimQuotes (s : String) : String :=
  String.mk (((s.data.dropWhile (· = '"')).reverse.dropWhile (· = '"')).reverse)

/-- The gcdnsp contains helper: the needle occurs among the haystack entries
after each entry is stripped of surrounding quotes. -/
def containsTok (haystack : List String) (needle : String) : Bool :=
  haystack.any (fun s => needle = trimQuotes s)

/-! ### godop: the DigitalOcean provisioner (src/godop/godop.go)

The DigitalOcean DNS backend is modelled as a list of domain records; API
calls are recorded in an explicit call trace. -/

/-- One DigitalOcean domain record (godo.DomainRecord). -/
structure GodoRecord where
  id : Nat
  name : String
  typ : String
  data : String
deriving DecidableEq, Repr

/-- Errors returned by the godop provisioner. -/
inductive GodopErr where
  | onlyTxt
  | invalidDomain
  | invalidName
  | recordNotDeleted
deriving DecidableEq, Repr

/-- DigitalOcean API calls issued by the godop provisioner. -/
inductive GodopCall where
  | createRecord (domain name data : String)
  | listRecords (domain : String)
  | deleteRecord (domain : String) (id : Nat)
deriving DecidableEq, Repr

/-- Result of a godop operation: outcome, backend record state, API calls. -/
structure GodopOut where
  result : Except GodopErr Unit
  records : List GodoRecord
  calls : List GodopCall
deriving DecidableEq, Repr

/-- The record name computed by godop: name[0 : len(name)-len(domain)-1],
the fqdn minus the "." ++ domain ending. -/
def godopName (domain name : String) : String :=
  strTake name (name.data.length - domain.data.length - 1)

/-- godop Client.Provision from src/godop/godop.go. -/
def godopProvision (domain : String) (recs : List GodoRecord) (freshId : Nat)
    (typ name token : String) : GodopOut :=
  if typ ≠ "TXT" then ⟨.error .onlyTxt, recs, []⟩
  else if ¬ strEndsWith name ("." ++ domain) then ⟨.error .invalidDomain, recs, []⟩
  else
    let n := godopName domain name
    if n = "" then ⟨.error .invalidName, recs, []⟩
    else ⟨.ok (), recs ++ [⟨freshId, n, "TXT", token⟩], [.createRecord domain n token]⟩

/-- The godop Unprovision matching test: record name, type and data all
equal the computed name, "TXT" and the token. -/
def godoMatches (n token : String) (r : GodoRecord) : Bool :=
  r.name = n && r.typ = "TXT" && r.data = token

/-- godop Client.Unprovision from src/godop/godop.go: deletes the first
record matching name, type and token; reports record-not-deleted when no
record matches. -/
def godopUnprovision (domain : String) (recs : List GodoRecord)
    (typ name token : String) : GodopOut :=
  if typ ≠ "TXT" then ⟨.error .onlyTxt, recs, []⟩
  else if ¬ strEndsWith name ("." ++ domain) then ⟨.error .invalidDomain, recs, []⟩
  else
    let n := godopName domain name
    if n = "" then ⟨.error .invalidName, recs, []⟩
    else
      match recs.find? (godoMatches n token) with
      | some r => ⟨.ok (), recs.eraseP (godoMatches n token),
          [.listRecords domain, .deleteRecord domain r.id]⟩
      | none => ⟨.error .recordNotDeleted, recs, [.listRecords domain]⟩

/-! ### gcdnsp: the Google Cloud DNS provisioner (src gcdnsp source)

The Google Cloud DNS backend is modelled as a list of resource record
sets; API calls and error-callback reports are recorded as events. The
concurrent propagation verification is modelled by a per-nameserver first
observation time together with a shared cutoff: the context is done at the
propagation-wait deadline or at an earlier parent cancellation, whichever
comes first, and every polling task stops at its own success or at that
shared cutoff. -/

/-- One Google Cloud DNS resource record set (dns.ResourceRecordSet). -/
structure RRSet where
  name : String
  typ : String
  rrdatas : List String
  ttl : Nat
deriving DecidableEq, Repr

/-- Errors returned by the gcdnsp provisioner. The propagation error stands
for the context error (deadline exceeded or canceled) returned by the
errgroup wait. -/
inductive GcdnspErr where
  | onlyTxt
  | invalidDomain
  | invalidName
  | propagationTimeout
deriving DecidableEq, Repr

/-- Google Cloud DNS API calls and error-callback reports issued by the
gcdnsp provisioner. -/
inductive GEvent where
  | changeCreate (additions deletions : List RRSet)
  | listRRSets
  | logNotFound (typ name token : String)
deriving DecidableEq, Repr

/-- Result of a gcdnsp operation: outcome, backend rrset state, events. -/
structure GcdnspOut where
  result : Except GcdnspErr Unit
  rrsets : List RRSet
  events : List GEvent
deriving DecidableEq, Repr

/-- Environment for the propagation verification: for each configured
nameserver, the first time (if any) at which a query to it returns the
expected TXT value, and an optional time at which the parent context is
canceled. -/
structure PropEnv where
  firstObs : List (Option Nat)
  parentCancel : Option Nat
deriving DecidableEq, Repr

/-- The shared moment at which the verification context is done: the
propagation-wait deadline, or the parent cancellation when earlier. -/
def cutoffTime (wait : Nat) (parentCancel : Option Nat) : Nat :=
  match parentCancel with
  | none => wait
  | some c => min wait c

/-- One nameserver polling task succeeds exactly when it observes the
expected value strictly before the shared context is done. -/
def nsObserves (cut : Nat) (obs : Option Nat) : Bool :=
  match obs with
  | some t => decide (t < cut)
  | none => false

/-- The time at which one nameserver polling task returns: at its first
observation when that comes before the shared cutoff, and at the shared
cutoff otherwise (the ctxt.Done branch of the polling loop). -/
def nsFinish (cut : Nat) (obs : Option Nat) : Nat :=
  match obs with
  | some t => if t < cut then t else cut
  | none => cut

/-- The errgroup aggregate: the verification succeeds only when every
nameserver observes the value before the shared cutoff. -/
def verifyPropagation (cut : Nat) (obs : List (Option Nat)) : Bool :=
  obs.all (nsObserves cut)

/-- gcdnsp Client.Provision: type and domain validation, a change request
adding the TXT record under the absolute name (fqdn plus a trailing dot),
then the concurrent propagation verification against all nameservers. -/
def gcdnspProvision (domain : String) (wait : Nat) (rrsets : List RRSet)
    (penv : PropEnv) (typ name token : String) : GcdnspOut :=
  if typ ≠ "TXT" then ⟨.error .onlyTxt, rrsets, []⟩
  else if ¬ strEndsWith name ("." ++ domain) then ⟨.error .invalidDomain, rrsets, []⟩
  else if strTrimSuffix name ("." ++ domain) = "" then ⟨.error .invalidName, rrsets, []⟩
  else
    let rr : RRSet := ⟨name ++ ".", typ, [token], 1⟩
    if verifyPropagation (cutoffTime wait penv.parentCancel) penv.firstObs then
      ⟨.ok (), rrsets ++ [rr], [.changeCreate [rr] []]⟩
    else
      ⟨.error .propagationTimeout, rrsets ++ [rr], [.changeCreate [rr] []]⟩

/-- The gcdnsp Unprovision matching test: rrset name, type and data all
match the absolute name, "TXT" and the token (after quote stripping). -/
def rrMatches (fullName token : String) (r : RRSet) : Bool :=
  r.name = fullName && r.typ = "TXT" && containsTok r.rrdatas token

/-- gcdnsp Client.Unprovision: deletes every rrset matching name, type and
token; when none matches it reports the not-found condition through the
error callback and returns success. -/
def gcdnspUnprovision (domain : String) (rrsets : List RRSet)
    (typ name token : String) : GcdnspOut :=
  if typ ≠ "TXT" then ⟨.error .onlyTxt, rrsets, []⟩
  else if ¬ strEndsWith name ("." ++ domain) then ⟨.error .invalidDomain, rrsets, []⟩
  else if strTrimSuffix name ("." ++ domain) = "" then ⟨.error .invalidName, rrsets, []⟩
  else
    let fullName := name ++ "."
    let deletions := rrsets.filter (rrMatches fullName token)
    if deletions.length < 1 then
      ⟨.ok (), rrsets, [.listRRSets, .logNotFound typ fullName token]⟩
    else
      ⟨.ok (), rrsets.filter (fun r => !(rrMatches fullName token r)),
        [.listRRSets, .changeCreate [] deletions]⟩

/-! ### The certificate manager (src/autocertdns.go)

The renew sequence is embedded as a function of the manager state and an
environment giving the outcome of each external call (disk key loads, ACME
authority calls, provisioning). It returns the outcome, the resulting
manager state, and the trace of external calls in order; the deferred
Unprovision call is appended at function exit on every path reached after
a successful Provision. -/

/-- Name of the ACME account key file in the cache directory. -/
def acmeKeyFile : String := "acme_account.key"

/-- The ACME challenge domain label prepended to the managed domain. -/
def acmeChallengeLabel : String := "_acme-challenge."

/-- Filename ending for cached key files. -/
def keySuffix : String := ".key"

/-- Filename ending for cached certificate files. -/
def certSuffix : String := ".crt"

/-- Manager state: configuration fields plus the mutable certificate slot
(cert, as an abstract certificate id, none when no certificate has ever
been obtained) and the next expiration date, both protected by the
reader-writer lock. Times and durations are integer ticks. -/
structure ManagerState where
  email : String
  promptSet : Bool
  provisionerSet : Bool
  cacheDir : String
  domain : String
  renewBefore : Int
  cert : Option Nat
  nextExpiry : Int
deriving DecidableEq, Repr

/-- Outcome of the ACME account registration call: success, an
already-registered conflict (HTTP 409, treated as success), or failure. -/
inductive RegisterResult where
  | ok
  | conflict
  | err (msg : String)
deriving DecidableEq, Repr

/-- Errors returned by renew, one per errf site in the source. -/
inductive RErr where
  | mustProvideEmail
  | mustProvidePrompt
  | mustProvideProvisioner
  | loadAcmeKey (e : String)
  | registerErr (e : String)
  | authorizeErr (e : String)
  | noDns01
  | tokenErr (e : String)
  | provisionErr (e : String)
  | acceptErr (e : String)
  | waitAuthErr (e : String)
  | invalidStatus (s : String)
  | domainKeyErr (e : String)
  | csrErr (e : String)
  | createCertErr (e : String)
deriving DecidableEq, Repr

/-- External calls made by renew, in order. -/
inductive REvent where
  | loadKey (path : String)
  | register
  | authorize
  | provision (typ fqdn token : String)
  | acceptChallenge
  | waitAuth
  | createCSR (keyPath : String)
  | createCert
  | unprovision (typ fqdn token : String)
  | persistCert (path : String)
  | setLiveCert
deriving DecidableEq, Repr

/-- Environment fixing the outcome of each external call renew can make.
The challenge list carries the challenge types offered by the authority;
the wait-authorization outcome carries the final authorization status
string; the create-certificate outcome carries the certificate URL. The
unprovision outcome is present but discarded by renew (deferred call with
ignored result). -/
structure RenewEnv where
  accountKey : Except String Unit
  registration : RegisterResult
  authorize : Except String (List String)
  token : Except String String
  provision : Except String Unit
  accept : Except String Unit
  waitAuth : Except String String
  domainKey : Except String Unit
  csr : Except String Unit
  createCert : Except String String
  unprovision : Except String Unit
deriving DecidableEq, Repr

/-- Result of renew: outcome, final manager state, call trace. -/
structure RenewOut where
  result : Except RErr Unit
  state : ManagerState
  trace : List REvent
deriving DecidableEq, Repr

/-- The steps of renew after a successful Provision, without the trailing
deferred Unprovision: challenge accept, wait for authorization with the
valid-status check, domain key load, certificate signing request built on
the domain key, certificate creation. Returns the outcome and the calls
made. -/
def renewPost (domain : String) (env : RenewEnv) :
    Except RErr Unit × List REvent :=
  match env.accept with
  | .error e => (.error (.acceptErr e), [.acceptChallenge])
  | .ok _ =>
    match env.waitAuth with
    | .error e => (.error (.waitAuthErr e), [.acceptChallenge, .waitAuth])
    | .ok status =>
      if status ≠ "valid" then
        (.error (.invalidStatus status), [.acceptChallenge, .waitAuth])
      else
        match env.domainKey with
        | .error e => (.error (.domainKeyErr e),
            [.acceptChallenge, .waitAuth, .loadKey (domain ++ keySuffix)])
        | .ok _ =>
          match env.csr with
          | .error e => (.error (.csrErr e),
              [.acceptChallenge, .waitAuth, .loadKey (domain ++ keySuffix),
               .createCSR (domain ++ keySuffix)])
          | .ok _ =>
            match env.createCert with
            | .error e => (.error (.createCertErr e),
                [.acceptChallenge, .waitAuth, .loadKey (domain ++ keySuffix),
                 .createCSR (domain ++ keySuffix), .createCert])
            | .ok _ => (.ok (),
                [.acceptChallenge, .waitAuth, .loadKey (domain ++ keySuffix),
                 .createCSR (domain ++ keySuffix), .createCert])

/-- Manager.renew from src/autocertdns.go. The whole body runs under the
writer lock. Note that on the success path the returned certificate chain
is discarded (der = der in the source): no certificate is persisted and
neither the live certificate nor the next expiration date is updated. -/
def renew (m : ManagerState) (env : RenewEnv) : RenewOut :=
  if m.email = "" then ⟨.error .mustProvideEmail, m, []⟩
  else if m.promptSet = false then ⟨.error .mustProvidePrompt, m, []⟩
  else if m.provisionerSet = false then ⟨.error .mustProvideProvisioner, m, []⟩
  else
    match env.accountKey with
    | .error e => ⟨.error (.loadAcmeKey e), m, [.loadKey acmeKeyFile]⟩
    | .ok _ =>
      match env.registration with
      | .err e => ⟨.error (.registerErr e), m, [.loadKey acmeKeyFile, .register]⟩
      | _ =>
        match env.authorize with
        | .error e => ⟨.error (.authorizeErr e), m,
            [.loadKey acmeKeyFile, .register, .authorize]⟩
        | .ok challengeTypes =>
          if ¬ challengeTypes.contains "dns-01" then
            ⟨.error .noDns01, m, [.loadKey acmeKeyFile, .register, .authorize]⟩
          else
            match env.token with
            | .error e => ⟨.error (.tokenErr e), m,
                [.loadKey acmeKeyFile, .register, .authorize]⟩
            | .ok tok =>
              let fqdn := acmeChallengeLabel ++ m.domain
              match env.provision with
              | .error e => ⟨.error (.provisionErr e), m,
                  [.loadKey acmeKeyFile, .register, .authorize,
                   .provision "TXT" fqdn tok]⟩
              | .ok _ =>
                let post := renewPost m.domain env
                ⟨post.1, m,
                  [.loadKey acmeKeyFile, .register, .authorize,
                   .provision "TXT" fqdn tok] ++ post.2 ++ [.unprovision "TXT" fqdn tok]⟩

/-- Manager.GetCertificate: returns the current certificate pointer and a
nil error, under the reader lock, with no external calls. -/
def getCertificate (m : ManagerState) : Option Nat × Option String :=
  (m.cert, none)

/-- Manager.afterRenew: the timer duration is the next expiration date
minus the current time (time.After of nextExpiry.Sub(now)); a nonpositive
duration fires immediately. -/
def afterRenewDelay (m : ManagerState) (now : Int) : Int :=
  m.nextExpiry - now

/-- Modelled from the spec: the renewal window, defaulting to five days
when RenewBefore is zero, as the RenewBefore field documentation states;
the source never reads RenewBefore, so this definition exists only for
comparison. One day is 86400 ticks. -/
def renewalWindowSpec (renewBefore : Int) : Int :=
  if renewBefore = 0 then 5 * 86400 else renewBefore

/-- Modelled from the spec: the renewal timer is claimed to fire at
max(0, expiry - renewalWindow - now). -/
def specRenewDelay (expiry window now : Int) : Int :=
  max 0 (expiry - window - now)

/-! ### Event predicates and error test -/

/-- Test for an Unprovision call event. -/
def isUnprovEvent : REvent → Bool
  | .unprovision _ _ _ => true
  | _ => false

/-- Test for a Provision call event. -/
def isProvEvent : REvent → Bool
  | .provision _ _ _ => true
  | _ => false

/-- Test for an error outcome. -/
def exceptIsError {ε α : Type} : Except ε α → Bool
  | .error _ => true
  | .ok _ => false

/-! ### Concrete sample inputs used as witnesses -/

/-- A fully configured manager with no certificate obtained yet. -/
def mOk : ManagerState :=
  ⟨"admin@example.test", true, true, "cache", "example.test", 0, none, 0⟩

/-- A manager missing the account email. -/
def mBad : ManagerState :=
  ⟨"", true, true, "cache", "example.test", 0, none, 0⟩

/-- One day in ticks (seconds). -/
def day : Int := 86400

/-- A manager whose next expiration date is ten days from time zero, with a
zero RenewBefore field. -/
def mTenDays : ManagerState :=
  ⟨"admin@example.test", true, true, "cache", "example.test", 0, some 0, 10 * 86400⟩

/-- An environment in which every external call succeeds. -/
def envOk : RenewEnv :=
  ⟨.ok (), .ok, .ok ["dns-01"], .ok "tok", .ok (), .ok (), .ok "valid",
   .ok (), .ok (), .ok "https://acme.example/cert", .ok ()⟩

/-- An environment in which Provision fails. -/
def envProvFail : RenewEnv :=
  ⟨.ok (), .ok, .ok ["dns-01"], .ok "tok", .error "dns api down", .ok (),
   .ok "valid", .ok (), .ok (), .ok "https://acme.example/cert", .ok ()⟩

/-! ### Helper lemmas about the renew trace -/

lemma renewPost_events (d : String) (env : RenewEnv) :
    ∀ e ∈ (renewPost d env).2,
      e = .acceptChallenge ∨ e = .waitAuth ∨ e = .loadKey (d ++ keySuffix) ∨
      e = .createCSR (d ++ keySuffix) ∨ e = .createCert := by
  unfold renewPost
  repeat' split
  all_goals simp_all

lemma renewPost_countP_unprov (d : String) (env : RenewEnv) :
    (renewPost d env).2.countP isUnprovEvent = 0 := by
  unfold renewPost
  repeat' split
  all_goals rfl

lemma renewPost_countP_prov (d : String) (env : RenewEnv) :
    (renewPost d env).2.countP isProvEvent = 0 := by
  unfold renewPost
  repeat' split
  all_goals rfl

lemma renewPost_not_mem_prov (d : String) (env : RenewEnv) (t f k : String) :
    REvent.provision t f k ∉ (renewPost d env).2 := by
  unfold renewPost
  repeat' split
  all_goals simp

lemma renewPost_not_mem_unprov (d : String) (env : RenewEnv) (t f k : String) :
    REvent.unprovision t f k ∉ (renewPost d env).2 := by
  unfold renewPost
  repeat' split
  all_goals simp

lemma renewPost_not_mem_persist (d : String) (env : RenewEnv) (p : String) :
    REvent.persistCert p ∉ (renewPost d env).2 := by
  unfold renewPost
  repeat' split
  all_goals simp

lemma renewPost_not_mem_setLive (d : String) (env : RenewEnv) :
    REvent.setLiveCert ∉ (renewPost d env).2 := by
  unfold renewPost
  repeat' split
  all_goals simp

lemma renewPost_csr_key (d : String) (env : RenewEnv) (p : String) :
    REvent.createCSR p ∈ (renewPost d env).2 → p = d ++ keySuffix := by
  unfold renewPost
  repeat' split
  all_goals simp_all

lemma renewPost_csr_load (d : String) (env : RenewEnv) :
    REvent.createCSR (d ++ keySuffix) ∈ (renewPost d env).2 →
      REvent.loadKey (d ++ keySuffix) ∈ (renewPost d env).2 := by
  unfold renewPost
  repeat' split
  all_goals simp_all

lemma renew_state_eq (m : ManagerState) (env : RenewEnv) :
    (renew m env).state = m := by
  unfold renew
  repeat' split
  all_goals rfl

lemma renew_no_persist (m : ManagerState) (env : RenewEnv) (p : String) :
    REvent.persistCert p ∉ (renew m env).trace := by
  unfold renew
  repeat' split
  all_goals simp [List.mem_append, renewPost_not_mem_persist]

lemma renew_no_setLive (m : ManagerState) (env : RenewEnv) :
    REvent.setLiveCert ∉ (renew m env).trace := by
  unfold renew
  repeat' split
  all_goals simp [List.mem_append, renewPost_not_mem_setLive]

lemma renew_provision_error (m : ManagerState) (env : RenewEnv) (e : String)
    (h : env.provision = .error e) :
    REvent.acceptChallenge ∉ (renew m env).trace ∧
    (renew m env).trace.countP isUnprovEvent = 0 := by
  unfold renew
  repeat' split
  all_goals simp_all [List.countP_cons, isUnprovEvent]

lemma renew_unprov_once (m : ManagerState) (env : RenewEnv)
    (hok : env.provision = .ok ()) (t f k : String)
    (hmem : REvent.provision t f k ∈ (renew m env).trace) :
    (renew m env).trace.countP isUnprovEvent = 1 ∧
    REvent.unprovision t f k ∈ (renew m env).trace := by
  unfold renew at hmem ⊢
  repeat' split at hmem
  all_goals simp_all [List.mem_append, renewPost_not_mem_prov]
  all_goals simp [List.countP_append, List.countP_cons, isUnprovEvent,
    renewPost_countP_unprov, hmem]

lemma renew_csr_key (m : ManagerState) (env : RenewEnv) (p : String)
    (hmem : REvent.createCSR p ∈ (renew m env).trace) :
    p = m.domain ++ keySuffix := by
  unfold renew at hmem
  repeat' split at hmem
  all_goals simp_all [List.mem_append]
  exact renewPost_csr_key m.domain env p hmem

lemma renew_csr_load (m : ManagerState) (env : RenewEnv)
    (hmem : REvent.createCSR (m.domain ++ keySuffix) ∈ (renew m env).trace) :
    REvent.loadKey (m.domain ++ keySuffix) ∈ (renew m env).trace := by
  unfold renew at hmem ⊢
  repeat' split at hmem
  all_goals simp_all [List.mem_append]
  exact Or.inr (renewPost_csr_load m.domain env hmem)

lemma renew_ignores_unprov_outcome (m : ManagerState) (env : RenewEnv)
    (o : Except String Unit) :
    renew m { env with unprovision := o } = renew m env := by
  cases env
  rfl

lemma append_keySuffix_inj {a b : String} (h : a ++ keySuffix = b ++ keySuffix) :
    a = b := by
  have hd : a.data ++ keySuffix.data = b.data ++ keySuffix.data := by
    have := congrArg String.data h
    simpa [String.data_append] using this
  exact String.ext (List.append_cancel_right hd)

/-! ### Helper lemmas about the provisioners -/

lemma godopUnprovision_removed_matches (z : String) (recs : List GodoRecord)
    (typ f tok : String) (r : GodoRecord) (hr : r ∈ recs)
    (hnot : r ∉ (godopUnprovision z recs typ f tok).records) :
    godoMatches (godopName z f) tok r = true := by
  by_contra hp
  refine hnot ?_
  unfold godopUnprovision
  simp only []
  repeat' split
  all_goals first
    | exact hr
    | exact (List.mem_eraseP_of_neg hp).2 hr

lemma godopUnprovision_not_found (z : String) (recs : List GodoRecord)
    (f tok : String) (hs : strEndsWith f ("." ++ z) = true)
    (hn : godopName z f ≠ "")
    (hfind : recs.find? (godoMatches (godopName z f) tok) = none) :
    godopUnprovision z recs "TXT" f tok =
      ⟨.error .recordNotDeleted, recs, [.listRecords z]⟩ := by
  unfold godopUnprovision
  simp only []
  repeat' split
  all_goals simp_all

lemma gcdnspUnprovision_removed_matches (z : String) (rs : List RRSet)
    (typ f tok : String) (r : RRSet) (hr : r ∈ rs)
    (hnot : r ∉ (gcdnspUnprovision z rs typ f tok).rrsets) :
    rrMatches (f ++ ".") tok r = true := by
  by_contra hp
  refine hnot ?_
  unfold gcdnspUnprovision
  simp only []
  repeat' split
  all_goals first
    | exact hr
    | exact List.mem_filter.2 ⟨hr, by simp_all⟩

lemma gcdnspUnprovision_not_found (z : String) (rs : List RRSet)
    (f tok : String) (hs : strEndsWith f ("." ++ z) = true)
    (hn : strTrimSuffix f ("." ++ z) ≠ "")
    (hfilter : rs.filter (rrMatches (f ++ ".") tok) = []) :
    gcdnspUnprovision z rs "TXT" f tok =
      ⟨.ok (), rs, [.listRRSets, .logNotFound "TXT" (f ++ ".") tok]⟩ := by
  unfold gcdnspUnprovision
  simp only []
  repeat' split
  all_goals simp_all

/-! ### Claim theorems -/

/-- C1: the claim states that a successful renew persists the returned
certificate chain, computes the new expiry, and updates the live
certificate and the next-renewal deadline under the writer lock. The code
does not: on every execution of renew, including the fully successful one
exhibited concretely here, the manager state is returned unchanged (cert
and nextExpiry untouched), no certificate is persisted and no
live-certificate update occurs — the returned chain is discarded (der =
der in the source), although the repository's own tests assert that the
cached certificate file exists after renew. -/
theorem C1_renew_discards_certificate (m : ManagerState) (env : RenewEnv) :
    (renew m env).state = m ∧
    (∀ p, REvent.persistCert p ∉ (renew m env).trace) ∧
    REvent.setLiveCert ∉ (renew m env).trace ∧
    ((renew mOk envOk).result = .ok () ∧ (renew mOk envOk).state.cert = none ∧
      (renew mOk envOk).state.nextExpiry = mOk.nextExpiry) :=
  ⟨renew_state_eq m env, fun p => renew_no_persist m env p, renew_no_setLive m env,
   by decide, by decide, by decide⟩

/-- C2: the claim states that the renewal timer fires at
max(0, expiry - renewalWindow - now) with a five-day default window. The
code ignores RenewBefore entirely: afterRenew fires at nextExpiry - now
for any value of RenewBefore, renew never updates nextExpiry, and for a
certificate expiring ten days from now with a zero RenewBefore the timer
fires at ten days, not at the five days the claim requires. -/
theorem C2_timer_ignores_renewal_window :
    (∀ (m : ManagerState) (now rb : Int),
        afterRenewDelay { m with renewBefore := rb } now = m.nextExpiry - now) ∧
    (∀ (m : ManagerState) (env : RenewEnv),
        (renew m env).state.nextExpiry = m.nextExpiry) ∧
    afterRenewDelay mTenDays 0 = 10 * day ∧
    specRenewDelay (10 * day) (renewalWindowSpec mTenDays.renewBefore) 0 = 5 * day ∧
    afterRenewDelay mTenDays 0 ≠ specRenewDelay (10 * day) (renewalWindowSpec mTenDays.renewBefore) 0 :=
  ⟨fun m now rb => rfl,
   fun m env => by rw [renew_state_eq],
   by decide, by decide, by decide⟩

/-- C3 counterexample: the claim states that GetCertificate returns an
error if and only if no certificate has ever been obtained. On a manager
that has never obtained a certificate, GetCertificate returns a nil
certificate together with a nil error, so the claimed equivalence fails. -/
theorem C3_counterexample :
    mOk.cert = none ∧ (getCertificate mOk).2 = none ∧
    ¬(((getCertificate mOk).2.isSome = true) ↔ mOk.cert = none) := by
  decide

/-- C3 amended: GetCertificate is a pure read-only accessor of the manager
state: it returns the currently live certificate, possibly nil and
possibly stale, and never returns an error, even when no certificate has
ever been obtained. -/
theorem C3_get_certificate_never_errors (m : ManagerState) :
    getCertificate m = (m.cert, none) :=
  rfl

/-- C4: in every execution of renew in which Provision is reached and
succeeds, Unprovision appears exactly once in the call trace and with the
same (type, fqdn, token) triple that was passed to Provision, on every
exit path; and whenever Provision fails, renew exits without calling
Accept and without calling Unprovision. -/
theorem C4_cleanup_always (m : ManagerState) (env : RenewEnv) :
    (∀ t f k, env.provision = .ok () →
        REvent.provision t f k ∈ (renew m env).trace →
        (renew m env).trace.countP isUnprovEvent = 1 ∧
        REvent.unprovision t f k ∈ (renew m env).trace) ∧
    (∀ e, env.provision = .error e →
        REvent.acceptChallenge ∉ (renew m env).trace ∧
        (renew m env).trace.countP isUnprovEvent = 0) :=
  ⟨fun t f k hok hmem => renew_unprov_once m env hok t f k hmem,
   fun e he => renew_provision_error m env e he⟩

/-- C4 witness: a concrete successful run calls Unprovision exactly once
with the triple passed to Provision, and a concrete run with a failing
Provision never calls Accept. -/
theorem C4_cleanup_always_witness :
    ((renew mOk envOk).trace.countP isUnprovEvent = 1 ∧
      REvent.unprovision "TXT" "_acme-challenge.example.test" "tok" ∈ (renew mOk envOk).trace) ∧
    (REvent.acceptChallenge ∉ (renew mOk envProvFail).trace ∧
      (renew mOk envProvFail).trace.countP isUnprovEvent = 0) :=
  ⟨(C4_cleanup_always mOk envOk).1 "TXT" "_acme-challenge.example.test" "tok"
      rfl (by decide),
   (C4_cleanup_always mOk envProvFail).2 "dns api down" rfl⟩

/-- C7: the certificate signing request inside renew is built with the key
loaded from the per-domain cache file, domain plus the .key ending; that
load is a distinct call from the account key load, and the two cache file
names differ for every domain other than the literal acme_account. -/
theorem C7_csr_uses_domain_key (m : ManagerState) (env : RenewEnv) :
    (∀ p, REvent.createCSR p ∈ (renew m env).trace → p = m.domain ++ keySuffix) ∧
    (REvent.createCSR (m.domain ++ keySuffix) ∈ (renew m env).trace →
      REvent.loadKey (m.domain ++ keySuffix) ∈ (renew m env).trace) ∧
    (m.domain ≠ "acme_account" → m.domain ++ keySuffix ≠ acmeKeyFile) :=
  ⟨fun p hp => renew_csr_key m env p hp,
   fun h => renew_csr_load m env h,
   fun hne heq => hne (append_keySuffix_inj (heq.trans (by decide)))⟩

/-- C7 witness: in a concrete successful run the CSR call uses the
example.test domain key and that key file differs from the account key
file. -/
theorem C7_csr_uses_domain_key_witness :
    ("example.test.key" : String) = mOk.domain ++ keySuffix ∧
    REvent.loadKey (mOk.domain ++ keySuffix) ∈ (renew mOk envOk).trace ∧
    mOk.domain ++ keySuffix ≠ acmeKeyFile :=
  ⟨(C7_csr_uses_domain_key mOk envOk).1 "example.test.key" (by decide),
   (C7_csr_uses_domain_key mOk envOk).2.1 (by decide),
   (C7_csr_uses_domain_key mOk envOk).2.2 (by decide)⟩

/-- C8: when the email, the TOS prompt or the provisioner is unset, renew
returns the corresponding configuration error with an empty call trace (no
disk or network activity) and leaves the manager state unchanged. -/
theorem C8_config_error_fails_fast (m : ManagerState) (env : RenewEnv)
    (h : m.email = "" ∨ m.promptSet = false ∨ m.provisionerSet = false) :
    (∃ er, (renew m env).result = .error er ∧
        (er = .mustProvideEmail ∨ er = .mustProvidePrompt ∨ er = .mustProvideProvisioner)) ∧
    (renew m env).trace = [] ∧ (renew m env).state = m := by
  unfold renew
  repeat' split
  all_goals first
    | exact ⟨⟨.mustProvideEmail, rfl, by simp⟩, rfl, rfl⟩
    | exact ⟨⟨.mustProvidePrompt, rfl, by simp⟩, rfl, rfl⟩
    | exact ⟨⟨.mustProvideProvisioner, rfl, by simp⟩, rfl, rfl⟩
    | simp_all

/-- C8 witness: a concrete manager with an empty email exits with an empty
trace and an unchanged state. -/
theorem C8_config_error_fails_fast_witness :
    (renew mBad envOk).trace = [] ∧ (renew mBad envOk).state = mBad :=
  (C8_config_error_fails_fast mBad envOk (Or.inl rfl)).2

/-- C5: both provisioners accept a TXT Provision for fqdn f and managed
zone z exactly when f ends with "." ++ z and the remainder after stripping
that ending is non-empty; godop stores the record under the remainder as
its name, and gcdnsp computes the same remainder for validation. On the
scenario fqdn, zone test yields record name _acme-challenge.example and
zone other.test is rejected as a domain mismatch by both. -/
theorem C5_record_name_computation :
    (∀ (z : String) (recs : List GodoRecord) (i : Nat) (f tok : String),
        ((godopProvision z recs i "TXT" f tok).result = .ok () ↔
          (strEndsWith f ("." ++ z) = true ∧ godopName z f ≠ "")) ∧
        ((godopProvision z recs i "TXT" f tok).result = .ok () →
          (godopProvision z recs i "TXT" f tok).records =
            recs ++ [⟨i, godopName z f, "TXT", tok⟩])) ∧
    (∀ (z : String) (w : Nat) (rs : List RRSet) (penv : PropEnv) (f tok : String),
        (((gcdnspProvision z w rs penv "TXT" f tok).result ≠ .error .invalidDomain ∧
          (gcdnspProvision z w rs penv "TXT" f tok).result ≠ .error .invalidName) ↔
          (strEndsWith f ("." ++ z) = true ∧ strTrimSuffix f ("." ++ z) ≠ ""))) ∧
    godopName "test" "_acme-challenge.example.test" = "_acme-challenge.example" ∧
    strTrimSuffix "_acme-challenge.example.test" ("." ++ "test") = "_acme-challenge.example" ∧
    (godopProvision "other.test" [] 0 "TXT" "_acme-challenge.example.test" "tok").result =
      .error .invalidDomain ∧
    (∀ (w : Nat) (penv : PropEnv),
        (gcdnspProvision "other.test" w [] penv "TXT" "_acme-challenge.example.test" "tok").result =
          .error .invalidDomain) := by
  refine ⟨?_, ?_, by decide, by decide, by decide, ?_⟩
  · intro z recs i f tok
    constructor
    · unfold godopProvision
      simp only []
      repeat' split
      all_goals simp_all
    · unfold godopProvision
      simp only []
      repeat' split
      all_goals simp_all
  · intro z w rs penv f tok
    unfold gcdnspProvision
    simp only []
    repeat' split
    all_goals simp_all
  · intro w penv
    have hs : strEndsWith "_acme-challenge.example.test" ".other.test" = false := by
      decide
    unfold gcdnspProvision
    simp [hs]

/-- C5 witness: on the scenario input the godop record is stored under the
computed remainder name. -/
theorem C5_record_name_computation_witness :
    (godopProvision "test" [] 0 "TXT" "_acme-challenge.example.test" "tok").records =
      [] ++ [⟨0, godopName "test" "_acme-challenge.example.test", "TXT", "tok"⟩] :=
  (C5_record_name_computation.1 "test" [] 0 "_acme-challenge.example.test" "tok").2 (by decide)

/-- C6: for both provisioners, Unprovision removes only records whose
name, type and value all match the computed triple — a record with
matching name and type but a different value is always preserved — and
when no record matches, godop reports the distinct record-not-deleted
error while gcdnsp reports the not-found condition through its error
callback, leaving the backend unchanged; the caller discards the
Unprovision outcome entirely, so any such report is non-fatal to renew. -/
theorem C6_unprovision_exact_match :
    (∀ (z : String) (recs : List GodoRecord) (typ f tok : String),
        (∀ r ∈ recs, r ∉ (godopUnprovision z recs typ f tok).records →
          godoMatches (godopName z f) tok r = true) ∧
        (∀ r ∈ recs, godoMatches (godopName z f) tok r = false →
          r ∈ (godopUnprovision z recs typ f tok).records)) ∧
    (∀ (z : String) (recs : List GodoRecord) (f tok : String),
        strEndsWith f ("." ++ z) = true → godopName z f ≠ "" →
        recs.find? (godoMatches (godopName z f) tok) = none →
        godopUnprovision z recs "TXT" f tok =
          ⟨.error .recordNotDeleted, recs, [.listRecords z]⟩) ∧
    (∀ (z : String) (rs : List RRSet) (typ f tok : String),
        (∀ r ∈ rs, r ∉ (gcdnspUnprovision z rs typ f tok).rrsets →
          rrMatches (f ++ ".") tok r = true) ∧
        (∀ r ∈ rs, rrMatches (f ++ ".") tok r = false →
          r ∈ (gcdnspUnprovision z rs typ f tok).rrsets)) ∧
    (∀ (z : String) (rs : List RRSet) (f tok : String),
        strEndsWith f ("." ++ z) = true → strTrimSuffix f ("." ++ z) ≠ "" →
        rs.filter (rrMatches (f ++ ".") tok) = [] →
        gcdnspUnprovision z rs "TXT" f tok =
          ⟨.ok (), rs, [.listRRSets, .logNotFound "TXT" (f ++ ".") tok]⟩) ∧
    (∀ (m : ManagerState) (env : RenewEnv) (o : Except String Unit),
        renew m { env with unprovision := o } = renew m env) := by
  refine ⟨?_, godopUnprovision_not_found, ?_, gcdnspUnprovision_not_found,
    renew_ignores_unprov_outcome⟩
  · intro z recs typ f tok
    refine ⟨godopUnprovision_removed_matches z recs typ f tok, ?_⟩
    intro r hr hfalse
    by_contra hnot
    have := godopUnprovision_removed_matches z recs typ f tok r hr hnot
    simp_all
  · intro z rs typ f tok
    refine ⟨gcdnspUnprovision_removed_matches z rs typ f tok, ?_⟩
    intro r hr hfalse
    by_contra hnot
    have := gcdnspUnprovision_removed_matches z rs typ f tok r hr hnot
    simp_all

/-- C6 witness: a concrete record with matching name and type but a
different value survives a godop Unprovision, which reports the distinct
record-not-deleted error; a concrete gcdnsp Unprovision with no matching
rrset reports not-found through the error callback and changes nothing;
and a concrete renew is unaffected by a failing Unprovision outcome. -/
theorem C6_unprovision_exact_match_witness :
    (⟨7, "_acme-challenge.example", "TXT", "other"⟩ : GodoRecord) ∈
      (godopUnprovision "test" [⟨7, "_acme-challenge.example", "TXT", "other"⟩]
        "TXT" "_acme-challenge.example.test" "tok").records ∧
    godopUnprovision "test" [⟨7, "_acme-challenge.example", "TXT", "other"⟩]
        "TXT" "_acme-challenge.example.test" "tok" =
      ⟨.error .recordNotDeleted, [⟨7, "_acme-challenge.example", "TXT", "other"⟩],
        [.listRecords "test"]⟩ ∧
    gcdnspUnprovision "test" [] "TXT" "_acme-challenge.example.test" "tok" =
      ⟨.ok (), [], [.listRRSets, .logNotFound "TXT" "_acme-challenge.example.test." "tok"]⟩ ∧
    renew mOk { envOk with unprovision := .error "boom" } = renew mOk envOk :=
  ⟨((C6_unprovision_exact_match.1 "test" [⟨7, "_acme-challenge.example", "TXT", "other"⟩]
        "TXT" "_acme-challenge.example.test" "tok").2 _ (by decide) (by decide)),
   by
    have h := C6_unprovision_exact_match.2.1 "test"
      [⟨7, "_acme-challenge.example", "TXT", "other"⟩]
      "_acme-challenge.example.test" "tok" (by decide) (by decide) (by decide)
    simpa using h,
   by
    have h := C6_unprovision_exact_match.2.2.2.1 "test" []
      "_acme-challenge.example.test" "tok" (by decide) (by decide) (by decide)
    simpa using h,
   C6_unprovision_exact_match.2.2.2.2 mOk envOk (.error "boom")⟩

/-- C9: the propagation verification succeeds exactly when every
nameserver observes the expected value before the shared cutoff (the
propagation-wait deadline, or an earlier parent cancellation); a
successful gcdnsp Provision implies the verification succeeded; every
per-nameserver polling task stops no later than the shared cutoff; on the
scenario with nameservers A, B, C where A and B observe the value in time
but C never does, the verification fails and Provision returns the
propagation error; and whenever Provision fails the renew sequence never
calls Accept. -/
theorem C9_propagation_all_or_nothing :
    (∀ (wait : Nat) (pc : Option Nat) (obs : List (Option Nat)),
        verifyPropagation (cutoffTime wait pc) obs = true ↔
          ∀ o ∈ obs, nsObserves (cutoffTime wait pc) o = true) ∧
    (∀ (z : String) (w : Nat) (rs : List RRSet) (penv : PropEnv) (typ f tok : String),
        (gcdnspProvision z w rs penv typ f tok).result = .ok () →
          verifyPropagation (cutoffTime w penv.parentCancel) penv.firstObs = true) ∧
    (∀ (cut : Nat) (o : Option Nat), nsFinish cut o ≤ cut) ∧
    (∀ (wait : Nat) (c : Nat), cutoffTime wait (some c) ≤ wait ∧ cutoffTime wait (some c) ≤ c) ∧
    verifyPropagation (cutoffTime 10 none) [some 1, some 2, none] = false ∧
    (gcdnspProvision "test" 10 [] ⟨[some 1, some 2, none], none⟩ "TXT"
        "_acme-challenge.example.test" "tok").result = .error .propagationTimeout ∧
    (∀ (m : ManagerState) (env : RenewEnv) (e : String), env.provision = .error e →
        REvent.acceptChallenge ∉ (renew m env).trace) := by
  refine ⟨?_, ?_, ?_, ?_, by decide, by decide, ?_⟩
  · intro wait pc obs
    simp [verifyPropagation, List.all_eq_true]
  · intro z w rs penv typ f tok h
    unfold gcdnspProvision at h
    simp only [] at h
    repeat' split at h
    all_goals simp_all
  · intro cut o
    cases o with
    | none => simp [nsFinish]
    | some t =>
      simp only [nsFinish]
      split
      · omega
      · exact Nat.le_refl cut
  · intro wait c
    simp [cutoffTime, Nat.min_le_left, Nat.min_le_right]
  · intro m env e he
    exact (renew_provision_error m env e he).1

/-- C9 witness: on a concrete run where all three nameservers observe the
value in time, the Provision success implies the verification succeeded;
and a concrete renew with a failing Provision never calls Accept. -/
theorem C9_propagation_all_or_nothing_witness :
    verifyPropagation (cutoffTime 10 (none : Option Nat)) [some 1, some 2, some 3] = true ∧
    REvent.acceptChallenge ∉ (renew mOk envProvFail).trace :=
  ⟨C9_propagation_all_or_nothing.2.1 "test" 10 [] ⟨[some 1, some 2, some 3], none⟩
      "TXT" "_acme-challenge.example.test" "tok" (by decide),
   C9_propagation_all_or_nothing.2.2.2.2.2.2 mOk envProvFail "dns api down" rfl⟩

/-- C10: for both provisioners and both operations, a record type other
than TXT, an fqdn that does not end with "." ++ the managed domain, or an
empty remainder after stripping the zone ending, yields an error with no
DNS API call issued and the backend record state unchanged. -/
theorem C10_validation_before_any_api_call :
    (∀ (z : String) (recs : List GodoRecord) (i : Nat) (typ f tok : String),
        (typ ≠ "TXT" ∨ strEndsWith f ("." ++ z) = false ∨ godopName z f = "") →
        exceptIsError (godopProvision z recs i typ f tok).result = true ∧
        (godopProvision z recs i typ f tok).records = recs ∧
        (godopProvision z recs i typ f tok).calls = []) ∧
    (∀ (z : String) (recs : List GodoRecord) (typ f tok : String),
        (typ ≠ "TXT" ∨ strEndsWith f ("." ++ z) = false ∨ godopName z f = "") →
        exceptIsError (godopUnprovision z recs typ f tok).result = true ∧
        (godopUnprovision z recs typ f tok).records = recs ∧
        (godopUnprovision z recs typ f tok).calls = []) ∧
    (∀ (z : String) (w : Nat) (rs : List RRSet) (penv : PropEnv) (typ f tok : String),
        (typ ≠ "TXT" ∨ strEndsWith f ("." ++ z) = false ∨ strTrimSuffix f ("." ++ z) = "") →
        exceptIsError (gcdnspProvision z w rs penv typ f tok).result = true ∧
        (gcdnspProvision z w rs penv typ f tok).rrsets = rs ∧
        (gcdnspProvision z w rs penv typ f tok).events = []) ∧
    (∀ (z : String) (rs : List RRSet) (typ f tok : String),
        (typ ≠ "TXT" ∨ strEndsWith f ("." ++ z) = false ∨ strTrimSuffix f ("." ++ z) = "") →
        exceptIsError (gcdnspUnprovision z rs typ f tok).result = true ∧
        (gcdnspUnprovision z rs typ f tok).rrsets = rs ∧
        (gcdnspUnprovision z rs typ f tok).events = []) := by
  refine ⟨?_, ?_, ?_, ?_⟩
  · intro z recs i typ f tok h
    unfold godopProvision
    simp only []
    repeat' split
    all_goals simp_all [exceptIsError]
  · intro z recs typ f tok h
    unfold godopUnprovision
    simp only []
    repeat' split
    all_goals simp_all [exceptIsError]
  · intro z w rs penv typ f tok h
    unfold gcdnspProvision
    simp only []
    repeat' split
    all_goals simp_all [exceptIsError]
  · intro z rs typ f tok h
    unfold gcdnspUnprovision
    simp only []
    repeat' split
    all_goals simp_all [exceptIsError]

/-- C10 witness: concrete validation failures for all four operations,
each leaving the backend unchanged with no API call. -/
theorem C10_validation_before_any_api_call_witness :
    ((godopProvision "test" [] 0 "A" "x.test" "t").calls = [] ∧
      exceptIsError (godopProvision "test" [] 0 "A" "x.test" "t").result = true) ∧
    ((godopUnprovision "test" [] "TXT" "x.other" "t").calls = [] ∧
      (godopUnprovision "test" [] "TXT" "x.other" "t").records = []) ∧
    ((gcdnspProvision "test" 9 [] ⟨[], none⟩ "TXT" ".test" "t").events = [] ∧
      (gcdnspProvision "test" 9 [] ⟨[], none⟩ "TXT" ".test" "t").rrsets = []) ∧
    ((gcdnspUnprovision "test" [] "CNAME" "x.test" "t").events = [] ∧
      exceptIsError (gcdnspUnprovision "test" [] "CNAME" "x.test" "t").result = true) :=
  ⟨⟨(C10_validation_before_any_api_call.1 "test" [] 0 "A" "x.test" "t"
       (Or.inl (by decide))).2.2,
    (C10_validation_before_any_api_call.1 "test" [] 0 "A" "x.test" "t"
       (Or.inl (by decide))).1⟩,
   ⟨(C10_validation_before_any_api_call.2.1 "test" [] "TXT" "x.other" "t"
       (Or.inr (Or.inl (by decide)))).2.2,
    (C10_validation_before_any_api_call.2.1 "test" [] "TXT" "x.other" "t"
       (Or.inr (Or.inl (by decide)))).2.1⟩,
   ⟨(C10_validation_before_any_api_call.2.2.1 "test" 9 [] ⟨[], none⟩ "TXT" ".test" "t"
       (Or.inr (Or.inr (by decide)))).2.2,
    (C10_validation_before_any_api_call.2.2.1 "test" 9 [] ⟨[], none⟩ "TXT" ".test" "t"
       (Or.inr (Or.inr (by decide)))).2.1⟩,
   ⟨(C10_validation_before_any_api_call.2.2.2 "test" [] "CNAME" "x.test" "t"
       (Or.inl (by decide))).2.2,
    (C10_validation_before_any_api_call.2.2.2 "test" [] "CNAME" "x.test" "t"
       (Or.inl (by decide))).1⟩⟩

end Autocertdns
